import Mathlib

/-!
Verification of the Buildkite pipeline generator
`.buildkite/pipelines/build_macos.json.py`.

The script is a pure configuration-data assembler: it parses three
command-line flags, crosses a fixed architecture list with a (possibly
restricted) build-type list, builds one step record per pair from static
templates, wraps them under a single `steps` key and prints the result as
JSON with two-space indentation.  We embed the script shallowly: Python
dicts become ordered association lists, dict indexing becomes an
`Option`-valued lookup (a missing key raises `KeyError` in Python), the
`argparse` layer becomes an `Except`-valued validator, and `json.dumps`
with `indent=2` becomes an executable renderer over a small JSON AST.
-/

namespace BuildMacos

/-- JSON values as produced by Python's `json` module.  Objects keep the
insertion order of the Python dict they came from. -/
inductive Json where
  | str : String → Json
  | num : Int → Json
  | bool : Bool → Json
  | null : Json
  | arr : List Json → Json
  | obj : List (String × Json) → Json

/-- `n` spaces, for indentation. -/
def pad (n : Nat) : String := String.mk (List.replicate n ' ')

/-- Lower-case hex digit, used by the `\uXXXX` escape. -/
def hexDigit (n : Nat) : Char :=
  if n < 10 then Char.ofNat (48 + n) else Char.ofNat (87 + n)

/-- Escaping of a single character inside a JSON string literal, following
`json.dumps` with its default `ensure_ascii=True`. -/
def escapeChar (c : Char) : String :=
  if c = '"' then "\\\""
  else if c = '\\' then "\\\\"
  else if c = '\n' then "\\n"
  else if c = '\t' then "\\t"
  else if c = '\r' then "\\r"
  else if c.toNat = 8 then "\\b"
  else if c.toNat = 12 then "\\f"
  else if c.toNat < 32 || c.toNat > 126 then
    String.mk ['\\', 'u', hexDigit (c.toNat / 4096 % 16), hexDigit (c.toNat / 256 % 16),
      hexDigit (c.toNat / 16 % 16), hexDigit (c.toNat % 16)]
  else String.mk [c]

/-- A JSON string literal: quoted, characters escaped. -/
def escapeString (s : String) : String :=
  "\"" ++ String.join (s.toList.map escapeChar) ++ "\""

/-- `json.dumps(·, indent=2)` rendering at indentation level `ind`.  The
first argument is recursion fuel, consumed once per nesting level; any
fuel bound above the tree depth renders the tree exactly (the generator's
trees have depth at most 5, and we call this with fuel 64). -/
def renderJson : Nat → Nat → Json → String
  | 0, _, _ => ""
  | fuel + 1, ind, j =>
    match j with
    | .str s => escapeString s
    | .num n => toString n
    | .bool b => cond b "true" "false"
    | .null => "null"
    | .arr [] => "[]"
    | .arr (x :: xs) =>
        "[\n" ++ pad (ind + 2) ++ renderJson fuel (ind + 2) x
          ++ String.join (xs.map (fun y => ",\n" ++ pad (ind + 2) ++ renderJson fuel (ind + 2) y))
          ++ "\n" ++ pad ind ++ "]"
    | .obj [] => "\x7b\x7d"
    | .obj ((k, v) :: kvs) =>
        "\x7b\n" ++ pad (ind + 2) ++ escapeString k ++ ": " ++ renderJson fuel (ind + 2) v
          ++ String.join (kvs.map (fun kv =>
              ",\n" ++ pad (ind + 2) ++ escapeString kv.1 ++ ": " ++ renderJson fuel (ind + 2) kv.2))
          ++ "\n" ++ pad ind ++ "\x7d"

/-- `json.dumps(j, indent=2)`. -/
def dumps (j : Json) : String := renderJson 64 0 j

/-- `archs = ["aarch64"]` (line 23). -/
def archs : List String := ["aarch64"]

/-- `build_types = ["RelWithDebInfo"]` (line 26). -/
def build_types : List String := ["RelWithDebInfo"]

/-- `actions = ["build", "debug"]` (line 29). -/
def actions : List String := ["build", "debug"]

/-- `agents` dict (line 33), keyed by architecture. -/
def agents : List (String × List (String × String)) :=
  [("aarch64",
    [("provider", "orka"),
     ("image", "ml-macos-13-arm-004.orkasi")])]

/-- `envs` dict (line 39), keyed by architecture. -/
def envs : List (String × List (String × String)) :=
  [("aarch64",
    [("TMPDIR", "/tmp"),
     ("HOMEBREW_PREFIX", "/opt/homebrew"),
     ("PATH", "/opt/homebrew/bin:$PATH"),
     ("ML_DEBUG", "0"),
     ("CPP_CROSS_COMPILE", ""),
     ("CMAKE_FLAGS", "-DCMAKE_TOOLCHAIN_FILE=cmake/darwin-aarch64.cmake"),
     ("RUN_TESTS", "true"),
     ("BOOST_TEST_OUTPUT_FORMAT_FLAGS", "--logger=JUNIT,error,boost_test_results.junit")])]

/-- The namespace produced by `argparse`: `build_type : Option String`
(default `None`), `action : String` (default `"build"`), and the
`--build-aarch64` store-true flag. -/
structure Args where
  build_type : Option String
  action : String
  build_aarch64 : Bool

/-- `itertools.product` on two lists, in the order Python enumerates it
(first coordinate major). -/
def product (xs ys : List String) : List (String × String) :=
  xs.flatMap (fun x => ys.map (fun y => (x, y)))

/-- The build-type working set (lines 54-56): the singleton
`[args.build_type]` when the flag was given, else the full fixed list. -/
def curBuildTypes (args : Args) : List String :=
  match args.build_type with
  | some bt => [bt]
  | none => build_types

/-- One step dict appended by the loop body (lines 59-84), for a given
`action` and `(arch, build_type)` pair.  The two dict indexings
`agents[arch]` and `envs[arch]` are `Option`-valued lookups: a missing
key would raise `KeyError` in Python, modelled here as `none`. -/
def mkStep (action arch build_type : String) : Option Json := do
  let agent ← agents.lookup arch
  let env ← envs.lookup arch
  pure (Json.obj
    [("label", .str ("Build & test :cpp: for MacOS-" ++ arch ++ "-" ++ build_type ++ " :macos:")),
     ("timeout_in_minutes", .str "300"),
     ("agents", .obj (agent.map (fun p => (p.1, Json.str p.2)))),
     ("commands", .arr
       [.str ("if [[ \"" ++ action ++ "\" == \"debug\" ]]; then export ML_DEBUG=1; fi"),
        .str ".buildkite/scripts/steps/build_and_test.sh"]),
     ("depends_on", .str "check_style"),
     ("key", .str ("build_test_macos-" ++ arch ++ "-" ++ build_type)),
     ("env", .obj (env.map (fun p => (p.1, Json.str p.2)))),
     ("artifact_paths", .str "*/**/unittest/boost_test_results.junit;*/**/unittest/ml_test_*"),
     ("plugins", .obj
       [("test-collector#v1.2.0", .obj
         [("files", .str "*/*/unittest/boost_test_results.junit"),
          ("format", .str "junit")])]),
     ("notify", .arr
       [.obj [("github_commit_status", .obj
         [("context", .str ("Build and test on MacOS " ++ arch ++ " " ++ build_type))])]])])

/-- The `pipeline_steps` list built by `main`'s loop (lines 53-84):
one step per `(arch, build_type)` pair of
`product(archs, cur_build_types)`, in enumeration order; `none` if any
dict lookup inside the loop fails. -/
def mainSteps (args : Args) : Option (List Json) :=
  (product archs (curBuildTypes args)).mapM (fun p => mkStep args.action p.1 p.2)

/-- The `pipeline` dict (lines 86-88): the step list wrapped under the
single top-level key `"steps"`. -/
def pipeline (args : Args) : Option Json :=
  (mainSteps args).map (fun steps => Json.obj [("steps", Json.arr steps)])

/-- What `main` writes to standard output (line 89):
`print(json.dumps(pipeline, indent=2))`, so the rendered document plus the
trailing newline `print` appends. -/
def output (args : Args) : Option String :=
  (pipeline args).map (fun j => dumps j ++ "\n")

/-- The raw command line as far as the generator's parser sees it: the two
optional value flags and the store-true flag. -/
structure Cli where
  build_type : Option String
  action : Option String
  build_aarch64 : Bool

/-- Validation of an optional flag value against an argparse `choices`
list: an absent flag is always fine, a present value must be a choice. -/
def validChoice (choices : List String) : Option String → Bool
  | none => true
  | some v => choices.contains v

/-- The `argparse` layer (lines 94-111): `--build-type` is validated
against `choices=build_types`, `--action` against `choices=actions` with
default `"build"`; an out-of-choices value makes the parser exit with a
usage error before `main` runs. -/
def parseArgs (c : Cli) : Except String Args :=
  if validChoice build_types c.build_type then
    if validChoice actions c.action then
      .ok ⟨c.build_type, c.action.getD "build", c.build_aarch64⟩
    else
      .error ("usage error: argument --action: invalid choice: " ++ c.action.getD "")
  else
    .error ("usage error: argument --build-type: invalid choice: " ++ c.build_type.getD "")

/-- The whole process: parse the flags, then run `main`.  `.ok s` is the
JSON document printed on standard output (exit code 0); `.error e` is a
usage or `KeyError` failure with nothing printed on standard output
(non-zero exit). -/
def program (c : Cli) : Except String String :=
  match parseArgs c with
  | .error e => .error e
  | .ok args =>
      match output args with
      | some s => .ok s
      | none => .error "KeyError"

/-- Field access in a JSON object (insertion-ordered dict). -/
def getField : Json → String → Option Json
  | .obj kvs, k => kvs.lookup k
  | _, _ => none

/-- The ordered key list of a JSON object. -/
def objKeys : Json → Option (List String)
  | .obj kvs => some (kvs.map Prod.fst)
  | _ => none

/-- The first element of the step list, when generation succeeds. -/
def firstStep (args : Args) : Option Json :=
  (mainSteps args).bind List.head?

/-- What the process prints on standard output: the document on success,
nothing on a usage error or lookup failure. -/
def stdoutOf : Except String String → Option String
  | .ok s => some s
  | .error _ => none

/-- Decidable check that a step object has exactly the documented field
set and nesting: top-level keys in order, `agents` an object with keys
`provider`/`image`, `commands` an array, `env` an object, `plugins`
holding the test-collector object with `files`/`format`, and `notify` a
one-element array of an object nesting `github_commit_status.context`. -/
def stepShapeB (s : Json) : Bool :=
  (objKeys s == some ["label", "timeout_in_minutes", "agents", "commands", "depends_on",
      "key", "env", "artifact_paths", "plugins", "notify"])
  && ((getField s "agents").bind objKeys == some ["provider", "image"])
  && (match getField s "commands" with
      | some (Json.arr _) => true
      | _ => false)
  && (match getField s "env" with
      | some (Json.obj _) => true
      | _ => false)
  && ((getField s "plugins").bind objKeys == some ["test-collector#v1.2.0"])
  && (((getField s "plugins").bind (fun p => getField p "test-collector#v1.2.0")).bind objKeys
      == some ["files", "format"])
  && (match getField s "notify" with
      | some (Json.arr [n]) =>
          (objKeys n == some ["github_commit_status"])
          && ((getField n "github_commit_status").bind objKeys == some ["context"])
      | _ => false)

/-- The exact text the script prints when invoked with no flags
(`build_type` absent, `action` defaulting to `"build"`), line by line. -/
def expectedDefaultOutput : String :=
  String.intercalate "\n"
    ["\x7b",
     "  \"steps\": [",
     "    \x7b",
     "      \"label\": \"Build & test :cpp: for MacOS-aarch64-RelWithDebInfo :macos:\",",
     "      \"timeout_in_minutes\": \"300\",",
     "      \"agents\": \x7b",
     "        \"provider\": \"orka\",",
     "        \"image\": \"ml-macos-13-arm-004.orkasi\"",
     "      \x7d,",
     "      \"commands\": [",
     "        \"if [[ \\\"build\\\" == \\\"debug\\\" ]]; then export ML_DEBUG=1; fi\",",
     "        \".buildkite/scripts/steps/build_and_test.sh\"",
     "      ],",
     "      \"depends_on\": \"check_style\",",
     "      \"key\": \"build_test_macos-aarch64-RelWithDebInfo\",",
     "      \"env\": \x7b",
     "        \"TMPDIR\": \"/tmp\",",
     "        \"HOMEBREW_PREFIX\": \"/opt/homebrew\",",
     "        \"PATH\": \"/opt/homebrew/bin:$PATH\",",
     "        \"ML_DEBUG\": \"0\",",
     "        \"CPP_CROSS_COMPILE\": \"\",",
     "        \"CMAKE_FLAGS\": \"-DCMAKE_TOOLCHAIN_FILE=cmake/darwin-aarch64.cmake\",",
     "        \"RUN_TESTS\": \"true\",",
     "        \"BOOST_TEST_OUTPUT_FORMAT_FLAGS\": \"--logger=JUNIT,error,boost_test_results.junit\"",
     "      \x7d,",
     "      \"artifact_paths\": \"*/**/unittest/boost_test_results.junit;*/**/unittest/ml_test_*\",",
     "      \"plugins\": \x7b",
     "        \"test-collector#v1.2.0\": \x7b",
     "          \"files\": \"*/*/unittest/boost_test_results.junit\",",
     "          \"format\": \"junit\"",
     "        \x7d",
     "      \x7d,",
     "      \"notify\": [",
     "        \x7b",
     "          \"github_commit_status\": \x7b",
     "            \"context\": \"Build and test on MacOS aarch64 RelWithDebInfo\"",
     "          \x7d",
     "        \x7d",
     "      ]",
     "    \x7d",
     "  ]",
     "\x7d"] ++ "\n"

/-- C1: With `--build-type RelWithDebInfo --action debug` the generator
emits exactly one step; its command list is exactly the conditional
`if [[ "debug" == "debug" ]]; then export ML_DEBUG=1; fi` followed by the
fixed `.buildkite/scripts/steps/build_and_test.sh` invocation.  With
`--action build` the first command is the same conditional with `build`
interpolated, whose test `"build" == "debug"` is false, so the export
does not fire. -/
theorem debug_flag_conditional_command :
    (mainSteps ⟨some "RelWithDebInfo", "debug", false⟩).map List.length = some 1 ∧
    (firstStep ⟨some "RelWithDebInfo", "debug", false⟩).bind (fun s => getField s "commands") =
      some (Json.arr
        [.str "if [[ \"debug\" == \"debug\" ]]; then export ML_DEBUG=1; fi",
         .str ".buildkite/scripts/steps/build_and_test.sh"]) ∧
    (firstStep ⟨some "RelWithDebInfo", "build", false⟩).bind (fun s => getField s "commands") =
      some (Json.arr
        [.str "if [[ \"build\" == \"debug\" ]]; then export ML_DEBUG=1; fi",
         .str ".buildkite/scripts/steps/build_and_test.sh"]) ∧
    ("build" : String) ≠ "debug" :=
  ⟨rfl, rfl, rfl, by decide⟩

/-- C2: With no flags (`build_type` absent, `action` defaulting to
`"build"`) the generator emits one step per entry of the fixed
`build_types` list — currently exactly one — whose label, `depends_on`
and `key` are the documented strings. -/
theorem default_invocation_step_fields :
    (mainSteps ⟨none, "build", false⟩).map List.length = some build_types.length ∧
    build_types.length = 1 ∧
    (firstStep ⟨none, "build", false⟩).bind (fun s => getField s "label") =
      some (.str "Build & test :cpp: for MacOS-aarch64-RelWithDebInfo :macos:") ∧
    (firstStep ⟨none, "build", false⟩).bind (fun s => getField s "depends_on") =
      some (.str "check_style") ∧
    (firstStep ⟨none, "build", false⟩).bind (fun s => getField s "key") =
      some (.str "build_test_macos-aarch64-RelWithDebInfo") :=
  ⟨rfl, rfl, rfl, rfl, rfl⟩

/-- C3: For every input the number of emitted steps is
`|archs| × |selected build types|` — the selected list being the
singleton when `--build-type` is given and the full fixed list otherwise
— and the steps enumerate `product archs curBuildTypes` in that order
(architecture-major, build-type-minor, fixed list order), as witnessed by
each step's `key` field. -/
theorem step_count_is_product (args : Args) :
    (mainSteps args).map List.length =
      some (archs.length * (curBuildTypes args).length) ∧
    (curBuildTypes args).length =
      (match args.build_type with
       | some _ => 1
       | none => build_types.length) ∧
    (mainSteps args).map (List.map (fun s => getField s "key")) =
      some ((product archs (curBuildTypes args)).map
        (fun p => some (Json.str ("build_test_macos-" ++ p.1 ++ "-" ++ p.2)))) := by
  obtain ⟨bt, act, b⟩ := args
  cases bt <;> exact ⟨rfl, rfl, rfl⟩

/-- C4: For every input the generated document is an object with the
single top-level key `steps` holding the ordered step array, every step
object has exactly the documented field set and nesting (checked by
`stepShapeB`), and the default invocation serializes — two-space
indentation included — to the exact expected text. -/
theorem output_shape_and_serialization :
    (∀ args : Args, ∃ steps,
      pipeline args = some (Json.obj [("steps", Json.arr steps)]) ∧
      steps.all stepShapeB = true) ∧
    output ⟨none, "build", false⟩ = some expectedDefaultOutput := by
  constructor
  · rintro ⟨bt, act, b⟩
    cases bt with
    | none => exact ⟨_, rfl, rfl⟩
    | some bt => exact ⟨_, rfl, rfl⟩
  · set_option maxRecDepth 10000 in rfl

/-- C5: The `--build-aarch64` flag is accepted but never read by the
generation logic: for every fixed `build_type` and `action` (valid or
not), the process behaves identically with the flag set and unset. -/
theorem build_aarch64_flag_noninterference (bt act : Option String) (b1 b2 : Bool) :
    program ⟨bt, act, b1⟩ = program ⟨bt, act, b2⟩ := by
  unfold program parseArgs
  by_cases h1 : validChoice build_types bt = true <;>
    by_cases h2 : validChoice actions act = true <;>
    (simp only [h1, h2, if_true, if_false, Bool.false_eq_true]; try rfl)

/-- C6: Generation is deterministic: any invocation equals itself, and
the generator's output is purely a function of the two live inputs
`build_type` and `action` (together with the static tables) — two `Args`
agreeing on those fields produce identical output. -/
theorem deterministic_output :
    (∀ c : Cli, program c = program c) ∧
    (∀ a1 a2 : Args, a1.build_type = a2.build_type → a1.action = a2.action →
      output a1 = output a2) := by
  refine ⟨fun _ => rfl, ?_⟩
  rintro ⟨bt1, act1, b1⟩ ⟨bt2, act2, b2⟩ hb ha
  change bt1 = bt2 at hb
  change act1 = act2 at ha
  subst hb; subst ha
  rfl

/-- Witness for C6 at a concrete input: two argument records for
`--build-type RelWithDebInfo` differing only in the dead flag give the
same output. -/
theorem deterministic_output_witness :
    output ⟨some "RelWithDebInfo", "build", true⟩ =
      output ⟨some "RelWithDebInfo", "build", false⟩ :=
  deterministic_output.2 ⟨some "RelWithDebInfo", "build", true⟩
    ⟨some "RelWithDebInfo", "build", false⟩ rfl rfl

/-- C7: An `--action` value outside the two-element action choice set
(here `release`) or a `--build-type` outside the enumerated set (here `Debug`)
is rejected by the argument parser with a usage error — the very error
`parseArgs` raises, so before any generation logic runs — the process
exits non-zero, and nothing is printed on standard output. -/
theorem invalid_action_rejected :
    program ⟨none, some "release", false⟩ =
      .error "usage error: argument --action: invalid choice: release" ∧
    parseArgs ⟨none, some "release", false⟩ =
      .error "usage error: argument --action: invalid choice: release" ∧
    stdoutOf (program ⟨none, some "release", false⟩) = none ∧
    program ⟨some "Debug", none, false⟩ =
      .error "usage error: argument --build-type: invalid choice: Debug" ∧
    stdoutOf (program ⟨some "Debug", none, false⟩) = none :=
  ⟨rfl, rfl, rfl, rfl, rfl⟩

/-- C8: Every architecture in the fixed `archs` list hits both the
`agents` and the `envs` table, and consequently generation never fails:
`mainSteps` is `some` for every input, so the `KeyError` branch is
unreachable. -/
theorem table_lookups_total :
    (archs.all (fun a => (agents.lookup a).isSome && (envs.lookup a).isSome)) = true ∧
    (∀ args : Args, (mainSteps args).isSome = true) := by
  refine ⟨rfl, ?_⟩
  rintro ⟨bt, act, b⟩
  cases bt <;> rfl

/-- C9: For every input — the debug action included — every emitted
step's env table maps `ML_DEBUG` to the string `"0"`; switching the
action from `build` to `debug` leaves every step's env field unchanged
(only the conditional-export command string differs). -/
theorem env_ml_debug_always_zero :
    (∀ args : Args,
      (mainSteps args).map
          (List.map (fun s => (getField s "env").bind (fun e => getField e "ML_DEBUG"))) =
        some ((product archs (curBuildTypes args)).map (fun _ => some (Json.str "0")))) ∧
    (∀ (bt : Option String) (b : Bool),
      (mainSteps ⟨bt, "debug", b⟩).map (List.map (fun s => getField s "env")) =
        (mainSteps ⟨bt, "build", b⟩).map (List.map (fun s => getField s "env"))) := by
  constructor
  · rintro ⟨bt, act, b⟩
    cases bt <;> rfl
  · intro bt b
    cases bt <;> rfl

/-- C10: In every emitted step the `timeout_in_minutes` field is the JSON
string `"300"` — a `Json.str`, never a `Json.num` — and `artifact_paths`
is the single semicolon-separated glob string, not an array of
patterns. -/
theorem timeout_string_artifact_single_string :
    (∀ args : Args,
      (mainSteps args).map
          (List.map (fun s => (getField s "timeout_in_minutes", getField s "artifact_paths"))) =
        some ((product archs (curBuildTypes args)).map
          (fun _ => (some (Json.str "300"),
            some (Json.str "*/**/unittest/boost_test_results.junit;*/**/unittest/ml_test_*"))))) ∧
    (∀ n : Int, Json.str "300" ≠ Json.num n) ∧
    (∀ l : List Json,
      Json.str "*/**/unittest/boost_test_results.junit;*/**/unittest/ml_test_*" ≠ Json.arr l) := by
  refine ⟨?_, fun n h => Json.noConfusion h, fun l h => Json.noConfusion h⟩
  rintro ⟨bt, act, b⟩
  cases bt <;> rfl

end BuildMacos
